import Mathlib

/-!
Verification of the Willow Application Server connection-session loop,
wake arbitration, and command-endpoint dispatch, as a shallow embedding of
`app/main.py` and `app/internal/command_endpoints/main.py`.

Python machine-level conventions used throughout:
* an exception escaping a piece of code is modelled with `Except`, the error
  value carrying both the Python exception kind and the state at raise time
  (Python mutations performed before the raise are kept);
* a `try ... except E: handler` is a `match` on that `Except`;
* `dict` values are association lists, `d[k]` is a lookup that raises
  `KeyError` when the key is absent, `k in d` is key membership.
-/

namespace Willow

/-! ## MAC normalization (`hex_mac`, app/main.py lines 154-157) -/

/-- Python `'%x' % n` for a natural number: lower-case hex digits. -/
def pyHex (n : Nat) : String :=
  (Nat.toDigits 16 n).asString

/-- Python `'%02x' % n`: lower-case hex, zero-padded to a minimum width of
two characters (wider numbers keep all their digits). -/
def py02x (n : Nat) : String :=
  let s := pyHex n
  if s.length < 2 then "0" ++ s else s

/-- Python `s.upper()`: upper-case every character. -/
def pyUpper (s : String) : String :=
  (s.data.map Char.toUpper).asString

/-- A `mac` argument of `hex_mac` is either an already formatted string or a
Python list of numbers. -/
inductive MacInput where
  | str (s : String)
  | bytes (l : List Nat)
deriving Repr, DecidableEq

/-- `hex_mac` (app/main.py lines 154-157): a string passes through unchanged;
a list is rendered with `'%02x:%02x:%02x:%02x:%02x:%02x' % (mac[0], ...,
mac[5])`.  Indexing `mac[0] ... mac[5]` raises `IndexError` when the list has
fewer than six elements, modelled by `none`. -/
def hex_mac : MacInput → Option String
  | .str s => some s
  | .bytes l =>
    if 6 ≤ l.length then
      some (String.intercalate ":"
        [py02x (l.getD 0 0), py02x (l.getD 1 0), py02x (l.getD 2 0),
         py02x (l.getD 3 0), py02x (l.getD 4 0), py02x (l.getD 5 0)])
    else none

/-- The spec's rendering of one byte: exactly two lower-case hex digits,
high nibble first.  Written from the spec's words, to be compared with the
source's `%02x` formatting. -/
def specHexByte (b : Nat) : String :=
  String.mk ["0123456789abcdef".toList.getD (b / 16) '?',
             "0123456789abcdef".toList.getD (b % 16) '?']

/-- The spec's rendering of a byte list: colon-separated two-digit lower-case
hex rendering of its elements. -/
def specMacRender (l : List Nat) : String :=
  String.intercalate ":" (l.map specHexByte)

set_option maxRecDepth 4000 in
theorem py02x_eq_specHexByte : ∀ b, b < 256 → py02x b = specHexByte b := by
  decide

/-- C6: MAC normalization maps both the preformatted string
"aa:bb:cc:dd:ee:ff" and the byte list [0xaa,0xbb,0xcc,0xdd,0xee,0xff] to the
identical canonical string "aa:bb:cc:dd:ee:ff", and in general a 6-element
byte list is rendered as the colon-separated two-digit lower-case hex
rendering of its elements. -/
theorem hex_mac_normalizes :
    hex_mac (.str "aa:bb:cc:dd:ee:ff") = some "aa:bb:cc:dd:ee:ff" ∧
    hex_mac (.bytes [0xaa, 0xbb, 0xcc, 0xdd, 0xee, 0xff]) =
      some "aa:bb:cc:dd:ee:ff" ∧
    ∀ l : List Nat, l.length = 6 → (∀ b ∈ l, b < 256) →
      hex_mac (.bytes l) = some (specMacRender l) := by
  refine ⟨rfl, by decide, ?_⟩
  intro l hlen hbytes
  match l, hlen with
  | [a, b, c, d, e, f], _ =>
    simp only [hex_mac, List.length_cons, List.length_nil, specMacRender,
      List.map, List.getD, List.get?, if_pos (by omega : 6 ≤ 6)]
    have ha := py02x_eq_specHexByte a (hbytes a (by simp))
    have hb := py02x_eq_specHexByte b (hbytes b (by simp))
    have hc := py02x_eq_specHexByte c (hbytes c (by simp))
    have hd := py02x_eq_specHexByte d (hbytes d (by simp))
    have he := py02x_eq_specHexByte e (hbytes e (by simp))
    have hf := py02x_eq_specHexByte f (hbytes f (by simp))
    simp [ha, hb, hc, hd, he, hf]

/-- Witness for `hex_mac_normalizes` at the concrete byte list
[0, 17, 2, 3, 255, 5]. -/
theorem hex_mac_normalizes_witness :
    hex_mac (.bytes [0, 17, 2, 3, 255, 5]) = some "00:11:02:03:ff:05" := by
  have h := hex_mac_normalizes.2.2 [0, 17, 2, 3, 255, 5] (by decide) (by decide)
  rw [h]; rfl

/-! ## Data model of the WebSocket session loop (`websocket_endpoint`)

`app/internal/wake.py`, `app/internal/connmgr.py`, `app/internal/notify.py`
and `app/internal/command_endpoints/__init__.py` are not part of the sources;
the pieces of them this loop touches are modelled from the spec where noted.
-/

/-- A wake event (spec §3): originating connection handle and the volume
scalar carried by the `wake_start` message. -/
structure WakeEvent where
  conn : Nat
  volume : Int
deriving Repr, DecidableEq

/-- Modelled from the spec: a `WakeSession` (`app/internal/wake.py` is not in
the sources) holds an ordered sequence of WakeEvents and a status;
`done = false` is the Open status a fresh session starts in, and
`add_event` appends. -/
structure WakeSession where
  events : List WakeEvent
  done : Bool
deriving Repr, DecidableEq

/-- Modelled from the spec: `WakeSession()` constructs an Open session with
no events. -/
def WakeSession.new : WakeSession := ⟨[], false⟩

/-- Modelled from the spec: `add_event` appends a WakeEvent to the session's
ordered sequence. -/
def WakeSession.add_event (w : WakeSession) (e : WakeEvent) : WakeSession :=
  { w with events := w.events ++ [e] }

/-- Per-connection registry record (spec §3 Connection): user agent plus the
three mutable identity fields, unset until a `hello` fragment supplies them. -/
structure ClientRec where
  ua : Option String
  hostname : Option String
  platform : Option String
  macAddr : Option String
deriving Repr, DecidableEq

/-- The outcome of one `send` call on the active command endpoint adapter:
a normal return (`None` or a raw response), a `CommandEndpointRuntimeException`,
or any other exception (which `websocket_endpoint` does not catch there). -/
inductive SendOutcome where
  | ok (resp : Option String)
  | runtimeErr (cause : String)
  | otherErr (cause : String)

/-- Modelled from the spec: the capability set of an installed command
endpoint adapter — `Name`, `Send` and `ParseResponse` (the concrete adapter
classes are not in the sources).  `sendOutcome` gives the behaviour of
`send` on each payload. -/
structure Adapter where
  name : String
  sendOutcome : String → SendOutcome
  parseResponse : String → Option String

/-- An outbound message written back to a device connection.
`speechResult s` stands for
`CommandEndpointResponse(result=CommandEndpointResult(speech=s)).model_dump_json()`
(modelled from the spec: the structured speech-result message shape lives in
the missing `command_endpoints/__init__.py`). -/
inductive Outmsg where
  | speechResult (speech : String)
  | raw (s : String)
  | configMsg
deriving Repr, DecidableEq

/-- Python exception kinds that can escape one iteration of the read loop. -/
inductive PyError where
  | decodeError
  | keyError (k : String)
  | indexError
  | adapterError (cause : String)
deriving Repr, DecidableEq

/-- The text Python interpolates for the exception in the
`unhandled exception in WebSocket route` log line. -/
def PyError.text : PyError → String
  | .decodeError => "Expecting value"
  | .keyError k => k
  | .indexError => "list index out of range"
  | .adapterError cause => cause

/-- One inbound message, after `json.loads` and the key-presence dispatch of
`websocket_endpoint` (the `elif` chain tests `wake_start`, `wake_end`,
`notify_done`, `cmd`, `goodbye`, `hello` in that order; a message matching
none of them falls through: `unknown`).  `malformed` is a frame on which
`json.loads` raises. -/
inductive Msg where
  | wakeStart (volume : Option Int)
  | wakeEnd
  | notifyDone (id : Nat)
  | cmdEndpoint (data : String)
  | cmdGetConfig
  | goodbye
  | hello (hostname : Option String) (hwType : Option String)
      (macAddr : Option MacInput)
  | unknown
  | malformed

/-- What the session loop reads next from the transport: a text frame, or a
transport-level disconnect (`WebSocketDisconnect` / `ConnectionClosed`). -/
inductive Inbound where
  | recv (m : Msg)
  | dropped

/-- Process-visible server state touched by `websocket_endpoint`: the
connection registry, the process-wide `wake_session` slot (plus the replaced
sessions, kept to state the arbitration invariant), the active command
endpoint, the notification queue's pending entries, and the observable
outputs (messages written back, log lines). -/
structure ServerState where
  clients : List (Nat × ClientRec)
  wakeSession : Option WakeSession
  retired : List WakeSession
  commandEndpoint : Option Adapter
  pending : List (Nat × Nat)
  outbox : List (Nat × Outmsg)
  log : List String

/-- Modelled from the spec: `ConnMgr.update_client` sets one field of the
record keyed by the connection handle; a handle not in the registry is a
no-op. -/
def updateClient (cs : List (Nat × ClientRec)) (h : Nat)
    (f : ClientRec → ClientRec) : List (Nat × ClientRec) :=
  cs.map (fun p => if p.1 = h then (p.1, f p.2) else p)

/-- Modelled from the spec: `ConnMgr.disconnect` removes the handle from the
registry (idempotent) and drops its pending notification entries. -/
def disconnect (s : ServerState) (h : Nat) : ServerState :=
  { s with clients := s.clients.filter (fun p => p.1 ≠ h),
           pending := s.pending.filter (fun p => p.1 ≠ h) }

/-- Handling of one decoded message by the body of the `while True` loop of
`websocket_endpoint` (app/main.py lines 192-257), for a message received on
connection `c`.  A `.error (e, s')` is an exception escaping the loop body,
with `s'` the state at raise time. -/
def handleMsg (s : ServerState) (c : Nat) : Msg → Except (PyError × ServerState) ServerState
  | .malformed => .error (.decodeError, s)
  | .wakeStart vol =>
    let s1 :=
      match s.wakeSession with
      | some w =>
        if w.done then
          { s with wakeSession := some WakeSession.new,
                   retired := w :: s.retired }
        else s
      | none => { s with wakeSession := some WakeSession.new }
    match vol with
    | some v =>
      match s1.wakeSession with
      | some w =>
        .ok { s1 with wakeSession := some (w.add_event ⟨c, v⟩) }
      | none => .ok s1
    | none => .ok s1
  | .wakeEnd => .ok s
  | .notifyDone id =>
    .ok { s with pending := s.pending.filter (fun p => p ≠ (c, id)) }
  | .cmdEndpoint data =>
    match s.commandEndpoint with
    | some a =>
      match a.sendOutcome data with
      | .ok none => .ok s
      | .ok (some r) =>
        match a.parseResponse r with
        | some txt => .ok { s with outbox := s.outbox ++ [(c, .raw txt)] }
        | none => .ok s
      | .runtimeErr cause =>
        .ok { s with
          outbox := s.outbox ++ [(c, .speechResult "WAS Command Endpoint unreachable")],
          log := s.log ++ ["WAS Command Endpoint unreachable: " ++ cause] }
      | .otherErr cause => .error (.adapterError cause, s)
    | none =>
      .ok { s with
        outbox := s.outbox ++ [(c, .speechResult "WAS Command Endpoint not active")],
        log := s.log ++ ["WAS Command Endpoint not active"] }
  | .cmdGetConfig => .ok { s with outbox := s.outbox ++ [(c, .configMsg)] }
  | .goodbye => .ok (disconnect s c)
  | .hello host hw mac =>
    let s1 :=
      match host with
      | some hn =>
        { s with clients := updateClient s.clients c (fun r => { r with hostname := some hn }) }
      | none => s
    let s2 :=
      match hw with
      | some t =>
        { s1 with clients := updateClient s1.clients c (fun r => { r with platform := some (pyUpper t) }) }
      | none => s1
    match mac with
    | some m =>
      match hex_mac m with
      | some ms =>
        .ok { s2 with clients := updateClient s2.clients c (fun r => { r with macAddr := some ms }) }
      | none => .error (.indexError, s2)
    | none => .ok s2
  | .unknown => .ok s

/-- The read loop of `websocket_endpoint` with its surrounding
`try`/`except` (app/main.py lines 191-264): messages are handled in arrival
order; a transport-level disconnect runs `connmgr.disconnect` and ends the
session; any other exception escaping the loop body is caught by the outer
`except Exception`, logged as an unhandled exception, and the handler
returns — the loop does not resume. -/
def runLoop (s : ServerState) (c : Nat) : List Inbound → ServerState
  | [] => s
  | .dropped :: _ => disconnect s c
  | .recv m :: rest =>
    match handleMsg s c m with
    | .ok s1 => runLoop s1 c rest
    | .error (e, s1) =>
      { s1 with log := s1.log ++ ["unhandled exception in WebSocket route: " ++ e.text] }

/-- The WakeEvents a single `wake_start` signal contributes: one event when
the message carries a `wake_volume`, none otherwise. -/
def newEvents (c : Nat) : Option Int → List WakeEvent
  | some v => [⟨c, v⟩]
  | none => []

/-- The events of the session a `wake_start` appends to: those of the
current session when it is Open, none when there is no session or it is
Done. -/
def priorOpenEvents (s : ServerState) : List WakeEvent :=
  match s.wakeSession with
  | some w => if w.done then [] else w.events
  | none => []

/-- How many WakeSessions of the state are Open: Open sessions among the
replaced ones plus the live slot if Open. -/
def openCount (s : ServerState) : Nat :=
  (s.retired.filter (fun w => !w.done)).length +
    (match s.wakeSession with
     | some w => if w.done then 0 else 1
     | none => 0)

/-- Modelled from the spec: the error taxonomy of `CommandRouter.Dispatch`
(§4.4, §7) — the source inlines the dispatch in `websocket_endpoint`, so
this definition follows the spec's words, to be compared with `handleMsg`. -/
inductive DispatchError where
  | endpointNotActive
  | endpointUnreachable (cause : String)
  | otherFailure (cause : String)
deriving Repr, DecidableEq

/-- Modelled from the spec: `Dispatch(rawCommandPayload) ->
NormalizedSpeechText|None`; fails with `EndpointNotActive` when no adapter is
installed and with `EndpointUnreachable` when `Send` reports the backend
unreachable. -/
def dispatch : Option Adapter → String → Except DispatchError (Option String)
  | none, _ => .error .endpointNotActive
  | some a, data =>
    match a.sendOutcome data with
    | .ok resp => .ok (resp.bind a.parseResponse)
    | .runtimeErr cause => .error (.endpointUnreachable cause)
    | .otherErr cause => .error (.otherFailure cause)

/-- A registered connection with no identity fields set and nothing else
going on: the state right after `connmgr.accept` of connection 0. -/
def sConn : ServerState :=
  { clients := [(0, ⟨some "Willow/1.0", none, none, none⟩)],
    wakeSession := none, retired := [], commandEndpoint := none,
    pending := [], outbox := [], log := [] }

/-- A state whose live WakeSession is Open and empty. -/
def sOpen : ServerState :=
  { sConn with wakeSession := some ⟨[], false⟩ }

/-- An installed adapter whose `send` always raises
`CommandEndpointRuntimeException`. -/
def failingAdapter : Adapter :=
  { name := "Home Assistant",
    sendOutcome := fun _ => .runtimeErr "connection refused",
    parseResponse := fun r => some r }

/-- `sConn` with `failingAdapter` installed. -/
def sWithFailing : ServerState := { sConn with commandEndpoint := some failingAdapter }

/-- C2 counterexample: on a state whose WakeSession is Open, `wake_end`
leaves the state unchanged — the session is not marked Done (the `wake_end`
arm of `websocket_endpoint` is `pass`). -/
theorem wake_end_noop_counterexample :
    handleMsg sOpen 0 .wakeEnd = .ok sOpen ∧
    ∀ s1, handleMsg sOpen 0 .wakeEnd = .ok s1 →
      ¬ ∃ w1, s1.wakeSession = some w1 ∧ w1.done = true := by
  refine ⟨rfl, ?_⟩
  intro s1 h1
  have hs : s1 = sOpen := by
    simpa [handleMsg, eq_comm] using h1
  rintro ⟨w1, hw, hd⟩
  rw [hs] at hw
  simp [sOpen, sConn] at hw
  rw [← hw] at hd
  simp at hd

/-- C2 amended: processing a `wake_end` message is a no-op in every state —
it never closes the current WakeSession. -/
theorem wake_end_noop (s : ServerState) (c : Nat) :
    handleMsg s c .wakeEnd = .ok s := rfl

/-- C3: starting from a state where every replaced session is Done,
processing `wake_start` keeps at most one WakeSession Open; the live slot
afterwards holds an Open session whose events are: fresh ones only when
there was no session or it was Done (never appended to the stale one), and
the old session's events extended when it was still Open. -/
theorem wake_start_arbitration (s : ServerState) (c : Nat) (vol : Option Int)
    (hret : ∀ w ∈ s.retired, w.done = true) :
    ∃ s1, handleMsg s c (.wakeStart vol) = .ok s1 ∧
      openCount s1 ≤ 1 ∧
      ∃ w1, s1.wakeSession = some w1 ∧ w1.done = false ∧
        (match s.wakeSession with
         | none => w1.events = newEvents c vol
         | some w =>
           if w.done then w1.events = newEvents c vol
           else w1.events = w.events ++ newEvents c vol) := by
  have hfil : s.retired.filter (fun w => !w.done) = [] := by
    rw [List.filter_eq_nil_iff]
    intro w hw
    simp [hret w hw]
  obtain ⟨cl, ws, rt, ce, pd, ob, lg⟩ := s
  simp only at hret hfil
  cases ws with
  | none =>
    cases vol with
    | none =>
      exact ⟨_, rfl, by simp [openCount, hfil, WakeSession.new], WakeSession.new, rfl, rfl, rfl⟩
    | some v =>
      exact ⟨_, rfl, by simp [openCount, hfil, WakeSession.new, WakeSession.add_event],
        WakeSession.new.add_event ⟨c, v⟩, rfl, rfl, by
          simp [WakeSession.new, WakeSession.add_event, newEvents]⟩
  | some w =>
    obtain ⟨evs, d⟩ := w
    cases d with
    | true =>
      cases vol with
      | none =>
        refine ⟨_, rfl, ?_, WakeSession.new, rfl, rfl, by simp [newEvents, WakeSession.new]⟩
        simp [openCount, hfil, WakeSession.new]
      | some v =>
        refine ⟨_, rfl, ?_, WakeSession.new.add_event ⟨c, v⟩, rfl, rfl, by
          simp [WakeSession.new, WakeSession.add_event, newEvents]⟩
        simp [openCount, hfil, WakeSession.new, WakeSession.add_event]
    | false =>
      cases vol with
      | none =>
        refine ⟨_, rfl, ?_, ⟨evs, false⟩, rfl, rfl, by simp [newEvents]⟩
        simp [openCount, hfil]
      | some v =>
        refine ⟨_, rfl, ?_, WakeSession.add_event ⟨evs, false⟩ ⟨c, v⟩, rfl, rfl, by
          simp [WakeSession.add_event, newEvents]⟩
        simp [openCount, hfil, WakeSession.add_event]

/-- Witness for `wake_start_arbitration`: a `wake_start` with volume 7 on
`sOpen` (an Open empty session, no replaced sessions). -/
theorem wake_start_arbitration_witness :
    ∃ s1, handleMsg sOpen 0 (.wakeStart (some 7)) = .ok s1 ∧
      openCount s1 ≤ 1 ∧
      ∃ w1, s1.wakeSession = some w1 ∧ w1.done = false ∧
        (match sOpen.wakeSession with
         | none => w1.events = newEvents 0 (some 7)
         | some w =>
           if w.done then w1.events = newEvents 0 (some 7)
           else w1.events = w.events ++ newEvents 0 (some 7)) :=
  wake_start_arbitration sOpen 0 (some 7) (by intro w hw; simp [sOpen, sConn] at hw)

/-- C9: a `wake_start` without `wake_volume` records no WakeEvent (the
resulting session's event list is exactly what an Open session already
held); with `wake_volume` exactly one WakeEvent carrying that volume and the
originating connection is appended. -/
theorem wake_volume_events (s : ServerState) (c : Nat) (vol : Option Int) :
    ∃ s1, handleMsg s c (.wakeStart vol) = .ok s1 ∧
      ∃ w1, s1.wakeSession = some w1 ∧
        w1.events = priorOpenEvents s ++ newEvents c vol := by
  obtain ⟨cl, ws, rt, ce, pd, ob, lg⟩ := s
  cases ws with
  | none =>
    cases vol with
    | none => exact ⟨_, rfl, WakeSession.new, rfl, by simp [priorOpenEvents, newEvents, WakeSession.new]⟩
    | some v => exact ⟨_, rfl, WakeSession.new.add_event ⟨c, v⟩, rfl, by
        simp [priorOpenEvents, newEvents, WakeSession.new, WakeSession.add_event]⟩
  | some w =>
    obtain ⟨evs, d⟩ := w
    cases d with
    | true =>
      cases vol with
      | none => exact ⟨_, rfl, WakeSession.new, rfl, by simp [priorOpenEvents, newEvents, WakeSession.new]⟩
      | some v => exact ⟨_, rfl, WakeSession.new.add_event ⟨c, v⟩, rfl, by
          simp [priorOpenEvents, newEvents, WakeSession.new, WakeSession.add_event]⟩
    | false =>
      cases vol with
      | none => exact ⟨_, rfl, ⟨evs, false⟩, rfl, by simp [priorOpenEvents, newEvents]⟩
      | some v => exact ⟨_, rfl, WakeSession.add_event ⟨evs, false⟩ ⟨c, v⟩, rfl, by
          simp [priorOpenEvents, newEvents, WakeSession.add_event]⟩

/-- C1 counterexample: on a registered connection, a malformed frame
followed by a well-formed `hello` leaves the second message unprocessed —
the loop ends at the malformed frame (with the unhandled-exception log line)
and the registry never receives the hostname, contradicting "the read loop
continues to process subsequent messages". -/
theorem loop_aborts_counterexample :
    runLoop sConn 0 [.recv .malformed, .recv (.hello (some "willow") none none)]
      = { sConn with log := ["unhandled exception in WebSocket route: Expecting value"] } ∧
    (runLoop sConn 0 [.recv .malformed, .recv (.hello (some "willow") none none)]).clients
      ≠ updateClient sConn.clients 0 (fun r => { r with hostname := some "willow" }) := by
  refine ⟨rfl, ?_⟩
  simp [runLoop, handleMsg, sConn, updateClient]

/-- C1 amended: an unexpected failure while handling an inbound message is
caught (the handler returns normally) and logged as an unhandled exception,
but it ends the session's read loop: the remaining inbound messages are
never processed. -/
theorem loop_catches_logs_and_stops (s : ServerState) (c : Nat) (m : Msg)
    (rest : List Inbound) (e : PyError) (s1 : ServerState)
    (herr : handleMsg s c m = .error (e, s1)) :
    runLoop s c (.recv m :: rest) =
      { s1 with log := s1.log ++ ["unhandled exception in WebSocket route: " ++ e.text] } := by
  simp [runLoop, herr]

/-- Witness for `loop_catches_logs_and_stops`: a malformed frame on
`sConn`. -/
theorem loop_catches_logs_and_stops_witness :
    runLoop sConn 0 [.recv .malformed] =
      { sConn with log := ["unhandled exception in WebSocket route: Expecting value"] } := by
  have h := loop_catches_logs_and_stops sConn 0 .malformed [] .decodeError sConn rfl
  simpa [sConn] using h

/-- C4: with no command-endpoint adapter installed, the dispatch fails with
`EndpointNotActive`, and handling the endpoint command writes the fixed
speech result "WAS Command Endpoint not active" back to the device's
connection (and logs it). -/
theorem endpoint_not_active (s : ServerState) (c : Nat) (data : String)
    (h : s.commandEndpoint = none) :
    dispatch s.commandEndpoint data = .error .endpointNotActive ∧
    handleMsg s c (.cmdEndpoint data) =
      .ok { s with
        outbox := s.outbox ++ [(c, .speechResult "WAS Command Endpoint not active")],
        log := s.log ++ ["WAS Command Endpoint not active"] } := by
  refine ⟨by rw [h]; rfl, ?_⟩
  obtain ⟨cl, ws, rt, ce, pd, ob, lg⟩ := s
  simp only at h
  subst h
  rfl

/-- Witness for `endpoint_not_active`: an endpoint command on `sConn`
(no adapter installed). -/
theorem endpoint_not_active_witness :
    handleMsg sConn 0 (.cmdEndpoint "turn on the lights") =
      .ok { sConn with
        outbox := [(0, .speechResult "WAS Command Endpoint not active")],
        log := ["WAS Command Endpoint not active"] } := by
  have h := (endpoint_not_active sConn 0 "turn on the lights" rfl).2
  simpa [sConn] using h

/-- C5: when the installed adapter's `send` raises the endpoint runtime
failure, the dispatch fails with `EndpointUnreachable`, the handler writes
the fixed speech result "WAS Command Endpoint unreachable" back to the
device's connection and logs the underlying cause, and the failure does not
propagate: the read loop goes on with the remaining messages. -/
theorem endpoint_unreachable (s : ServerState) (c : Nat) (data : String)
    (a : Adapter) (cause : String) (rest : List Inbound)
    (ha : s.commandEndpoint = some a)
    (hsend : a.sendOutcome data = .runtimeErr cause) :
    dispatch s.commandEndpoint data = .error (.endpointUnreachable cause) ∧
    handleMsg s c (.cmdEndpoint data) =
      .ok { s with
        outbox := s.outbox ++ [(c, .speechResult "WAS Command Endpoint unreachable")],
        log := s.log ++ ["WAS Command Endpoint unreachable: " ++ cause] } ∧
    runLoop s c (.recv (.cmdEndpoint data) :: rest) =
      runLoop { s with
        outbox := s.outbox ++ [(c, .speechResult "WAS Command Endpoint unreachable")],
        log := s.log ++ ["WAS Command Endpoint unreachable: " ++ cause] } c rest := by
  have hd : dispatch s.commandEndpoint data = .error (.endpointUnreachable cause) := by
    rw [ha]; simp [dispatch, hsend]
  have hm : handleMsg s c (.cmdEndpoint data) =
      .ok { s with
        outbox := s.outbox ++ [(c, .speechResult "WAS Command Endpoint unreachable")],
        log := s.log ++ ["WAS Command Endpoint unreachable: " ++ cause] } := by
    obtain ⟨cl, ws, rt, ce, pd, ob, lg⟩ := s
    simp only at ha
    subst ha
    simp [handleMsg, hsend]
  exact ⟨hd, hm, by simp [runLoop, hm]⟩

/-- Witness for `endpoint_unreachable`: an endpoint command on
`sWithFailing`, whose adapter's `send` always raises the runtime failure. -/
theorem endpoint_unreachable_witness :
    runLoop sWithFailing 0 [.recv (.cmdEndpoint "ping")] =
      { sWithFailing with
        outbox := [(0, .speechResult "WAS Command Endpoint unreachable")],
        log := ["WAS Command Endpoint unreachable: connection refused"] } := by
  have h := (endpoint_unreachable sWithFailing 0 "ping" failingAdapter
    "connection refused" [] rfl rfl).2.2
  simp only [runLoop] at h
  simpa [sWithFailing, sConn] using h

/-- One `hello` message body: the three optional identity fields
(app/main.py lines 249-257). -/
structure HelloFrag where
  hostname : Option String
  hwType : Option String
  mac : Option MacInput
deriving Repr, DecidableEq

/-- The inbound frame carrying a `hello` fragment. -/
def helloMsgOf (f : HelloFrag) : Inbound :=
  .recv (.hello f.hostname f.hwType f.mac)

/-- The most recent present value in a sequence of optional values — the
spec's "the most recent fragment for each field"; `none` when no element is
present. -/
def lastPresent {α : Type} : List (Option α) → Option α
  | [] => none
  | o :: rest =>
    match lastPresent rest with
    | some v => some v
    | none => o

theorem lastPresent_mem {α : Type} :
    ∀ (l : List (Option α)) (v : α), lastPresent l = some v → some v ∈ l := by
  intro l
  induction l with
  | nil => intro v h; simp [lastPresent] at h
  | cons o rest ih =>
    intro v h
    simp only [lastPresent] at h
    cases hr : lastPresent rest with
    | some w =>
      rw [hr] at h
      have : w = v := by injection h
      exact this ▸ List.mem_cons_of_mem _ (ih w hr)
    | none =>
      rw [hr] at h
      exact h ▸ List.mem_cons_self o rest

theorem lastPresent_or {α : Type} (o : Option α) (l : List (Option α)) (x : Option α) :
    (lastPresent (o :: l)).or x = (lastPresent l).or (o.or x) := by
  cases h : lastPresent l <;> simp [lastPresent, h]

theorem lastPresent_map_or {α β : Type} (u : α → β) (o : Option α)
    (l : List (Option α)) (x : Option β) :
    ((lastPresent (o :: l)).map u).or x = ((lastPresent l).map u).or ((o.map u).or x) := by
  cases h : lastPresent l <;> cases o <;> simp [lastPresent, h]

theorem lastPresent_bind_or {α β : Type} (g : α → Option β) (o : Option α)
    (l : List (Option α)) (x : Option β)
    (hg : ∀ v, some v ∈ o :: l → (g v).isSome) :
    ((lastPresent (o :: l)).bind g).or x = ((lastPresent l).bind g).or ((o.bind g).or x) := by
  cases h : lastPresent l with
  | none => cases o <;> simp [lastPresent, h]
  | some v =>
    have hv : some v ∈ o :: l := List.mem_cons_of_mem _ (lastPresent_mem l v h)
    obtain ⟨b, hb⟩ := Option.isSome_iff_exists.mp (hg v hv)
    simp [lastPresent, h, hb]

/-- The record produced by one `hello` fragment: each present field is
written (with `hw_type` upper-cased and `mac_addr` normalized), absent
fields keep their previous value. -/
def helloApply (r : ClientRec) (f : HelloFrag) : ClientRec :=
  ⟨r.ua,
   f.hostname.or r.hostname,
   (f.hwType.map pyUpper).or r.platform,
   (f.mac.bind hex_mac).or r.macAddr⟩

theorem handle_hello_step (s : ServerState) (c : Nat) (r : ClientRec) (f : HelloFrag)
    (hcl : s.clients = [(c, r)])
    (hm : ∀ m, f.mac = some m → (hex_mac m).isSome) :
    handleMsg s c (.hello f.hostname f.hwType f.mac) =
      .ok { s with clients := [(c, helloApply r f)] } := by
  obtain ⟨cl, ws, rt, ce, pd, ob, lg⟩ := s
  simp only at hcl
  subst hcl
  obtain ⟨fh, ft, fm⟩ := f
  cases fm with
  | none =>
    cases fh <;> cases ft <;>
      simp [handleMsg, updateClient, helloApply, Option.or]
  | some m =>
    obtain ⟨ms, hms⟩ := Option.isSome_iff_exists.mp (hm m rfl)
    cases fh <;> cases ft <;>
      simp [handleMsg, updateClient, helloApply, Option.or, hms]

/-- C8: over any sequence of `hello` fragments on a registered connection,
exactly the fields present are written, in arrival order — the registry ends
up with the most recent present value per field (`hw_type` upper-cased,
`mac_addr` normalized through `hex_mac`), and a field no fragment mentions
keeps its prior (unset) value. -/
theorem hello_registry (c : Nat) (s : ServerState) (r : ClientRec)
    (hs : List HelloFrag)
    (hcl : s.clients = [(c, r)])
    (hmac : ∀ f ∈ hs, ∀ m, f.mac = some m → (hex_mac m).isSome) :
    (runLoop s c (hs.map helloMsgOf)).clients =
      [(c, ⟨r.ua,
        (lastPresent (hs.map HelloFrag.hostname)).or r.hostname,
        ((lastPresent (hs.map HelloFrag.hwType)).map pyUpper).or r.platform,
        ((lastPresent (hs.map HelloFrag.mac)).bind hex_mac).or r.macAddr⟩)] := by
  induction hs generalizing s r with
  | nil =>
    simp [runLoop, lastPresent, hcl]
  | cons f rest ih =>
    have hstep := handle_hello_step s c r f hcl (fun m hm => hmac f (List.mem_cons_self f rest) m hm)
    have hrec : runLoop s c ((f :: rest).map helloMsgOf) =
        runLoop { s with clients := [(c, helloApply r f)] } c (rest.map helloMsgOf) := by
      simp only [List.map_cons, helloMsgOf, runLoop, hstep]
    rw [hrec, ih { s with clients := [(c, helloApply r f)] } (helloApply r f) rfl
      (fun g hg m hm => hmac g (List.mem_cons_of_mem f hg) m hm)]
    have hhost := lastPresent_or f.hostname (rest.map HelloFrag.hostname) r.hostname
    have hplat := lastPresent_map_or pyUpper f.hwType (rest.map HelloFrag.hwType) r.platform
    have hmacf : ∀ v, some v ∈ f.mac :: rest.map HelloFrag.mac → (hex_mac v).isSome := by
      intro v hv
      rcases List.mem_cons.mp hv with h | h
      · exact hmac f (List.mem_cons_self f rest) v h.symm
      · obtain ⟨g, hg, hgv⟩ := List.mem_map.mp h
        exact hmac g (List.mem_cons_of_mem f hg) v hgv
    have hmacr := lastPresent_bind_or hex_mac f.mac (rest.map HelloFrag.mac) r.macAddr hmacf
    simp only [List.map_cons, helloApply, hhost, hplat, hmacr]

/-- Witness for `hello_registry`: two fragments — the first sets hostname
and hardware type, the second the MAC as a byte list. -/
theorem hello_registry_witness :
    (runLoop sConn 0 ([⟨some "kitchen", some "esp32-s3-box", none⟩,
        ⟨none, none, some (.bytes [170, 187, 204, 221, 238, 255])⟩].map helloMsgOf)).clients =
      [(0, ⟨some "Willow/1.0", some "kitchen", some "ESP32-S3-BOX",
        some "aa:bb:cc:dd:ee:ff"⟩)] := by
  have h := hello_registry 0 sConn ⟨some "Willow/1.0", none, none, none⟩
    [⟨some "kitchen", some "esp32-s3-box", none⟩,
     ⟨none, none, some (.bytes [170, 187, 204, 221, 238, 255])⟩]
    rfl (by decide)
  rw [h]
  decide

/-! ## Command endpoint initialization
(`init_command_endpoint`, app/internal/command_endpoints/main.py) -/

/-- A value stored in the user configuration dict. -/
inductive ConfigVal where
  | str (s : String)
  | num (n : Int)
  | boolean (b : Bool)
deriving Repr, DecidableEq

/-- The user configuration returned by `get_config_db()`: a Python dict,
as an association list. -/
abbrev Config : Type := List (String × ConfigVal)

/-- Python `d.get(k)` / the value behind `k in d`. -/
def cfgFind (cfg : Config) (k : String) : Option ConfigVal :=
  (List.find? (fun p => p.1 = k) cfg).map (fun p => p.2)

/-- Python `k in d`. -/
def cfgHas (cfg : Config) (k : String) : Bool := (cfgFind cfg k).isSome

/-- Python `d[k]`: raises `KeyError` when the key is absent. -/
def cfgGet (cfg : Config) (k : String) : Except PyError ConfigVal :=
  match cfgFind cfg k with
  | some v => .ok v
  | none => .error (.keyError k)

/-- Python truthiness of a configuration value. -/
def pyTruthy : ConfigVal → Bool
  | .str s => s != ""
  | .num n => n != 0
  | .boolean b => b

/-- The attribute names of a plain Python `dict` object — its methods.
`hasattr` on a dict consults these; the dict's mapping keys are not
attributes. -/
def dictAttrNames : List String :=
  ["keys", "values", "items", "get", "pop", "popitem", "clear", "copy",
   "update", "setdefault", "fromkeys"]

/-- Python `hasattr(d, name)` for a plain dict `d`. -/
def dict_hasattr (name : String) : Bool := dictAttrNames.contains name

/-- Modelled from the spec: the generic-REST adapter configuration
(`HttpPullGeneric{baseUrl, authType, optional header/user/pass}`); each
setter stores its value, all unset at construction. -/
structure RestConfig where
  authType : Option ConfigVal
  authHeader : Option ConfigVal
  authPass : Option ConfigVal
  authUser : Option ConfigVal
deriving Repr, DecidableEq

/-- Modelled from the spec: a fresh `RestEndpoint(url).config` with no
authentication settings applied. -/
def RestConfig.initial : RestConfig := ⟨none, none, none, none⟩

/-- Modelled from the spec: the tagged union of backend adapter
configurations built by `init_command_endpoint` (the adapter classes are not
in the sources; each variant records the constructor/setter arguments the
source passes). -/
inductive CmdEndpointKind where
  | hass (host port tls token : ConfigVal)
  | mqtt (authType host port tls topic : ConfigVal)
      (password username : Option ConfigVal)
  | openhab (url token : ConfigVal)
  | rest (url : ConfigVal) (config : RestConfig)
deriving Repr, DecidableEq

/-- The `app` state `init_command_endpoint` touches: the active endpoint
slot and the log. -/
structure RouterState where
  commandEndpoint : Option CmdEndpointKind
  log : List String
deriving Repr, DecidableEq

/-- `try: app.command_endpoint.stop() / except Exception: pass`
(app/internal/command_endpoints/main.py lines 17-20): whatever the call
raises — including `AttributeError` when no endpoint is installed — is
swallowed; the state is unchanged and nothing is logged in either arm. -/
def tryStopSwallow (stopOutcome : Except String Unit) (app : RouterState) : RouterState :=
  match stopOutcome with
  | .ok _ => app
  | .error _ => app

/-- `init_command_endpoint(app)` (app/internal/command_endpoints/main.py
lines 15-68), with `stopOutcome` the behaviour of the previous adapter's
`stop()` and `cfg` the dict `get_config_db()` returned. -/
def init_command_endpoint (stopOutcome : Except String Unit)
    (app : RouterState) (cfg : Config) : Except PyError RouterState :=
  let app0 := tryStopSwallow stopOutcome app
  match cfgFind cfg "was_mode" with
  | none => .ok app0
  | some wv =>
    if pyTruthy wv then
      let app1 := { app0 with log := app0.log ++ ["WAS Endpoint mode enabled"] }
      match cfgGet cfg "command_endpoint" with
      | .error e => .error e
      | .ok ce =>
        if ce = .str "Home Assistant" then
          match cfgGet cfg "hass_host" with
          | .error e => .error e
          | .ok host =>
            match cfgGet cfg "hass_port" with
            | .error e => .error e
            | .ok port =>
              match cfgGet cfg "hass_tls" with
              | .error e => .error e
              | .ok tls =>
                match cfgGet cfg "hass_token" with
                | .error e => .error e
                | .ok token =>
                  .ok { app1 with commandEndpoint := some (.hass host port tls token) }
        else if ce = .str "MQTT" then
          match cfgGet cfg "mqtt_auth_type" with
          | .error e => .error e
          | .ok authType =>
            match cfgGet cfg "mqtt_host" with
            | .error e => .error e
            | .ok host =>
              match cfgGet cfg "mqtt_port" with
              | .error e => .error e
              | .ok port =>
                match cfgGet cfg "mqtt_tls" with
                | .error e => .error e
                | .ok tls =>
                  match cfgGet cfg "mqtt_topic" with
                  | .error e => .error e
                  | .ok topic =>
                    .ok { app1 with commandEndpoint := some (.mqtt authType host port
                      tls topic (cfgFind cfg "mqtt_password") (cfgFind cfg "mqtt_username")) }
        else if ce = .str "openHAB" then
          match cfgGet cfg "openhab_url" with
          | .error e => .error e
          | .ok url =>
            match cfgGet cfg "openhab_token" with
            | .error e => .error e
            | .ok token =>
              .ok { app1 with commandEndpoint := some (.openhab url token) }
        else if ce = .str "REST" then
          match cfgGet cfg "rest_url" with
          | .error e => .error e
          | .ok url =>
            let rc0 := RestConfig.initial
            match (if dict_hasattr "rest_auth_type" then
                     match cfgGet cfg "rest_auth_type" with
                     | .error e => .error e
                     | .ok v => .ok { rc0 with authType := some v }
                   else .ok rc0 : Except PyError RestConfig) with
            | .error e => .error e
            | .ok rc1 =>
              let rc2 := if cfgHas cfg "rest_auth_header" then
                { rc1 with authHeader := cfgFind cfg "rest_auth_header" } else rc1
              let rc3 := if cfgHas cfg "rest_auth_pass" then
                { rc2 with authPass := cfgFind cfg "rest_auth_pass" } else rc2
              let rc4 := if cfgHas cfg "rest_auth_user" then
                { rc3 with authUser := cfgFind cfg "rest_auth_user" } else rc3
              .ok { app1 with commandEndpoint := some (.rest url rc4) }
        else .ok app1
    else .ok app0

/-- A previously installed adapter (so `stop()` is really attempted on
something) with an empty log. -/
def appPrev : RouterState :=
  { commandEndpoint := some (.openhab (.str "http://openhab.local") (.str "token1")),
    log := [] }

/-- A stored configuration selecting the openHAB endpoint. -/
def cfgOh : Config :=
  [("was_mode", .boolean true), ("command_endpoint", .str "openHAB"),
   ("openhab_url", .str "http://openhab.local"), ("openhab_token", .str "token2")]

/-- C7 counterexample: with an installed adapter whose `stop()` raises,
`init_command_endpoint` completes and installs the new adapter, but the
resulting log holds only the endpoint-mode line — the `stop()` failure is
swallowed by `except Exception: pass` and is never logged, contrary to the
claim's "tolerated and logged". -/
theorem stop_failure_not_logged_counterexample :
    init_command_endpoint (.error "boom") appPrev cfgOh =
      .ok { commandEndpoint := some (.openhab (.str "http://openhab.local")
              (.str "token2")),
            log := ["WAS Endpoint mode enabled"] } := rfl

/-- C7 amended: installing a new adapter first attempts `stop()` on the
previous one, and any failure that raises is tolerated silently — it never
propagates and leaves no trace: the whole run is identical to one whose
`stop()` succeeded, so installation of the new adapter proceeds, but the
failure is not logged. -/
theorem stop_failure_swallowed (stopOutcome : Except String Unit)
    (app : RouterState) (cfg : Config) :
    init_command_endpoint stopOutcome app cfg =
      init_command_endpoint (.ok ()) app cfg := by
  cases stopOutcome <;> rfl

/-- C10: with a dict configuration selecting the "REST" endpoint, a stored
`rest_auth_type` is never applied — the presence test `hasattr` is false on
dict keys, so the resulting adapter's auth type stays unset — while
`rest_auth_header`, `rest_auth_pass` and `rest_auth_user` are applied
through key-membership tests exactly when present. -/
theorem rest_auth_type_never_applied (stopOutcome : Except String Unit)
    (app : RouterState) (cfg : Config) (wv u : ConfigVal)
    (hw : cfgFind cfg "was_mode" = some wv) (hv : pyTruthy wv = true)
    (hce : cfgFind cfg "command_endpoint" = some (.str "REST"))
    (hurl : cfgFind cfg "rest_url" = some u) :
    init_command_endpoint stopOutcome app cfg =
      .ok { commandEndpoint := some (.rest u
              ⟨none, cfgFind cfg "rest_auth_header", cfgFind cfg "rest_auth_pass",
               cfgFind cfg "rest_auth_user"⟩),
            log := app.log ++ ["WAS Endpoint mode enabled"] } := by
  have hget : cfgGet cfg "command_endpoint" = .ok (.str "REST") := by
    simp [cfgGet, hce]
  have hgurl : cfgGet cfg "rest_url" = .ok u := by
    simp [cfgGet, hurl]
  cases stopOutcome <;>
  · simp only [init_command_endpoint, tryStopSwallow, hw, hv, if_true, hget, hgurl]
    have hht : dict_hasattr "rest_auth_type" = false := by decide
    simp only [hht, Bool.false_eq_true, if_false]
    cases hh : cfgFind cfg "rest_auth_header" <;>
      cases hp : cfgFind cfg "rest_auth_pass" <;>
        cases hu : cfgFind cfg "rest_auth_user" <;>
          simp [cfgHas, hh, hp, hu, RestConfig.initial]

/-- The C10 witness configuration: REST with a stored `rest_auth_type` and
some of the other auth keys present. -/
def cfgRest10 : Config :=
  [("was_mode", .boolean true), ("command_endpoint", .str "REST"),
   ("rest_url", .str "http://rest.local/api"), ("rest_auth_type", .str "Basic"),
   ("rest_auth_header", .str "X-Auth"), ("rest_auth_user", .str "willow")]

/-- Witness for `rest_auth_type_never_applied`: on `cfgRest10` the auth type
stays unset even though `rest_auth_type` is stored, while the header and
user keys are applied. -/
theorem rest_auth_type_never_applied_witness :
    init_command_endpoint (.ok ()) ⟨none, []⟩ cfgRest10 =
      .ok { commandEndpoint := some (.rest (.str "http://rest.local/api")
              ⟨none, some (.str "X-Auth"), none, some (.str "willow")⟩),
            log := ["WAS Endpoint mode enabled"] } := by
  have h := rest_auth_type_never_applied (.ok ()) ⟨none, []⟩ cfgRest10
    (.boolean true) (.str "http://rest.local/api") rfl rfl rfl rfl
  simpa using h

end Willow
